import Mathlib

/-!
# Twilio / Dialogflow session bridge

A shallow embedding of `service.go`: the session record `DialogflowService`, the
inbound event loop `HandleConnection`, the upstream receive loop `rcvDialogflow`
and the helpers they call.

Modelling conventions.

* Calls that leave the process (writes to the websocket, upstream opens and sends,
  the call-update request, the two release calls) are recorded, in program order,
  as a list of `Effect`.
* Results supplied by the outside world (whether an upstream open or send fails,
  whether the call-update request fails, which responses `Recv` yields before it
  reports the end of the stream) are inputs, gathered in `External`.
* A Go run-time panic (nil dereference, slice bounds) is an explicit outcome:
  the `panicked` flag of a result. Effects issued before the panic are kept.
* `go s.rcvDialogflow()` is recorded as the effect `goRcvDialogflow`; the loop it
  starts is the function `rcvDialogflow`. The statements on `HandleConnection`
  that must hold whatever that loop did are quantified over the session state.
-/

namespace TwilioDialogflow

/-- Byte strings (`[]byte`); the code never inspects a byte value. -/
abbrev Bytes := List Nat

/-- Size of the header that precedes synthesized audio. -/
def mulawHeaderSize : Nat := 58

/-! ## Inbound and outbound telephony messages -/

structure Start where
  AccountSid : String
  StreamSid : String
  CallSid : String
  deriving DecidableEq, Repr

structure Mark where
  Name : String
  deriving DecidableEq, Repr

structure Media where
  Track : String
  Chunk : String
  Timestamp : String
  Payload : Bytes
  deriving DecidableEq, Repr

/-- Value of `req` after a successful `ReadJSON`; the three payload fields are
pointers in the source and may be nil. -/
structure StreamInputRequest where
  Event : String
  Start : Option Start
  Media : Option Media
  Mark : Option Mark
  StreamSid : Option String
  deriving DecidableEq, Repr

structure MediaPayload where
  Payload : Bytes
  deriving DecidableEq, Repr

structure MarkPayload where
  Name : String
  deriving DecidableEq, Repr

structure StreamOutputRequest where
  StreamSid : String
  Event : String
  Media : Option MediaPayload
  Mark : Option MarkPayload
  deriving DecidableEq, Repr

/-! ## Upstream (speech service) messages -/

structure Intent where
  DisplayName : String
  EndInteraction : Bool
  deriving DecidableEq, Repr

structure QueryResult where
  QueryText : String
  Intent : Option Intent
  deriving DecidableEq, Repr

inductive MessageType where
  | MESSAGE_TYPE_UNSPECIFIED
  | TRANSCRIPT
  | END_OF_SINGLE_UTTERANCE
  deriving DecidableEq, Repr

structure StreamingRecognitionResult where
  MessageType : MessageType
  Transcript : String
  deriving DecidableEq, Repr

structure StreamingDetectIntentResponse where
  OutputAudio : Bytes
  RecognitionResult : Option StreamingRecognitionResult
  QueryResult : Option QueryResult
  deriving DecidableEq, Repr

/-- Nil-safe getter of the generated protobuf code. -/
def GetTranscript : Option StreamingRecognitionResult → String
  | none => ""
  | some r => r.Transcript

/-- Nil-safe getter of the generated protobuf code. -/
def GetMessageType : Option StreamingRecognitionResult → MessageType
  | none => MessageType.MESSAGE_TYPE_UNSPECIFIED
  | some r => r.MessageType

/-- Requests written to an upstream stream. -/
inductive StreamingDetectIntentRequest where
  | audioConfig (session : String)
  | welcomeEvent (session : String)
  | inputAudio (audio : Bytes)
  deriving DecidableEq, Repr

/-! ## Session record, effects, results -/

/-- Handle of the session client (`*dialogflow.SessionsClient`). -/
inductive SessionsClient where
  | mk
  deriving DecidableEq, Repr

/-- Handle of one upstream duplex stream. -/
inductive StreamingDetectIntentClient where
  | mk
  deriving DecidableEq, Repr

/-- Fields of the Go struct that the code reads or branches on. -/
structure DialogflowService where
  callSid : String
  streamSid : String
  sessionPath : String
  sessionClient : Option SessionsClient
  sessionStream : Option StreamingDetectIntentClient
  redirectURL : String
  finalQueryResult : Option QueryResult
  isStopped : Bool
  isInterrupted : Bool
  isAudioInputPaused : Bool
  deriving DecidableEq, Repr

/-- Calls that leave the process, as issued (whether or not they succeed). -/
inductive Effect where
  | write (req : StreamOutputRequest)
  | streamingDetectIntent
  | streamSend (req : StreamingDetectIntentRequest)
  | goRcvDialogflow
  | updateCall (callSid : String) (redirectURL : String)
  | clientClose
  | closeSend
  deriving DecidableEq, Repr

/-- The error values built by the `fmt.Errorf` sites of `service.go`. -/
inductive Error where
  | initStreamingClient
  | initAudioStream
  | getStreamer (cause : Error)
  | sendAudio
  | welcomeClient
  | welcomeEvent
  | voiceResponse
  | updateCall
  deriving DecidableEq, Repr

/-- What the outside world answers while one inbound event is handled. -/
structure External where
  streamingDetectIntentErr : Bool
  firstSendErr : Bool
  audioSendErr : Bool
  voiceErr : Bool
  updateCallErr : Bool
  recv : List StreamingDetectIntentResponse
  deriving DecidableEq, Repr

/-- Result of a piece of code without an error return. -/
structure Run where
  svc : DialogflowService
  out : List Effect
  panicked : Bool
  deriving DecidableEq, Repr

/-- Result of a piece of code that returns `error`. -/
structure Result where
  svc : DialogflowService
  out : List Effect
  err : Option Error
  panicked : Bool
  deriving DecidableEq, Repr

/-- State right after `NewDialogflowService` and a successful `StartSession`. -/
def NewDialogflowService (redirectURL sessionPath : String) : DialogflowService :=
  { callSid := "", streamSid := "", sessionPath := sessionPath,
    sessionClient := some SessionsClient.mk, sessionStream := none,
    redirectURL := redirectURL, finalQueryResult := none,
    isStopped := false, isInterrupted := false, isAudioInputPaused := false }

/-! ## Outbound helpers -/

/-- Go `a[low:]`: a run-time panic when `low` exceeds the length. -/
def sliceFrom (a : Bytes) (low : Nat) : Option Bytes :=
  if low ≤ a.length then some (a.drop low) else none

def onDialogflowMedia (s : DialogflowService) (audio : Bytes) : List Effect :=
  [Effect.write { StreamSid := s.streamSid, Event := "media",
                  Media := some { Payload := audio }, Mark := none }]

def onInterrupted (s : DialogflowService) : DialogflowService × List Effect :=
  ({ s with isInterrupted := true },
   [Effect.write { StreamSid := s.streamSid, Event := "clear", Media := none, Mark := none }])

def endOfInteraction (s : DialogflowService) : List Effect :=
  [Effect.write { StreamSid := s.streamSid, Event := "mark", Media := none,
                  Mark := some { Name := "endOfInteraction" } }]

/-- The cleanup routine, guarded by `isStopped`. -/
def close (s : DialogflowService) : DialogflowService × List Effect :=
  if !s.isStopped then
    let o1 := if s.sessionClient.isSome then [Effect.clientClose] else []
    let o2 := if s.sessionStream.isSome then [Effect.closeSend] else []
    ({ s with sessionClient := none, sessionStream := none, isStopped := true }, o1 ++ o2)
  else (s, [])

/-! ## The receive loop -/

/-- Body of the `for` loop of `rcvDialogflow` for one response `resp`. -/
def rcvResponse (s : DialogflowService) (resp : StreamingDetectIntentResponse) : Run :=
  let audio : Option (List Effect) :=
    if 0 < resp.OutputAudio.length then
      (sliceFrom resp.OutputAudio mulawHeaderSize).map (onDialogflowMedia s)
    else some []
  match audio with
  | none => { svc := s, out := [], panicked := true }
  | some o1 =>
    let (s2, o2) :=
      if 0 < (GetTranscript resp.RecognitionResult).length then
        if !s.isInterrupted then onInterrupted s else (s, [])
      else (s, [])
    let s3 :=
      if GetMessageType resp.RecognitionResult = MessageType.END_OF_SINGLE_UTTERANCE then
        { s2 with isAudioInputPaused := true }
      else s2
    let s4 :=
      match resp.QueryResult with
      | none => s3
      | some qr =>
        match qr.Intent with
        | none => s3
        | some i => if i.EndInteraction then { s3 with finalQueryResult := some qr } else s3
    { svc := s4, out := o1 ++ o2, panicked := false }

/-- The `for` loop of `rcvDialogflow`: `Recv` yields the responses of the list, then
an error. `Recv` is called on `s.sessionStream`, a nil interface panics. -/
def rcvLoop : DialogflowService → List StreamingDetectIntentResponse → Run
  | s, [] =>
    match s.sessionStream with
    | none => { svc := s, out := [], panicked := true }
    | some _ =>
      { svc := { s with sessionStream := none, isInterrupted := false,
                        isAudioInputPaused := false },
        out := [], panicked := false }
  | s, resp :: rest =>
    match s.sessionStream with
    | none => { svc := s, out := [], panicked := true }
    | some _ =>
      let a := rcvResponse s resp
      if a.panicked then a
      else
        let b := rcvLoop a.svc rest
        { svc := b.svc, out := a.out ++ b.out, panicked := b.panicked }

/-- The receive loop of one turn followed by the end-of-turn check. -/
def rcvDialogflow (s : DialogflowService) (resps : List StreamingDetectIntentResponse) : Run :=
  let a := rcvLoop s resps
  if a.panicked then a
  else if a.svc.finalQueryResult.isSome then
    { svc := a.svc, out := a.out ++ endOfInteraction a.svc, panicked := false }
  else a

/-! ## The inbound side -/

/-- The greeting turn; its receive loop runs inline. -/
def welcome (s : DialogflowService) (x : External) : Result :=
  match s.sessionClient with
  | none => { svc := s, out := [], err := none, panicked := true }
  | some _ =>
    if x.streamingDetectIntentErr then
      { svc := s, out := [Effect.streamingDetectIntent],
        err := some Error.welcomeClient, panicked := false }
    else if x.firstSendErr then
      { svc := s,
        out := [Effect.streamingDetectIntent,
                Effect.streamSend (StreamingDetectIntentRequest.welcomeEvent s.sessionPath)],
        err := some Error.welcomeEvent, panicked := false }
    else
      let r := rcvDialogflow { s with sessionStream := some StreamingDetectIntentClient.mk } x.recv
      { svc := r.svc,
        out := [Effect.streamingDetectIntent,
                Effect.streamSend (StreamingDetectIntentRequest.welcomeEvent s.sessionPath)]
               ++ r.out,
        err := none, panicked := r.panicked }

/-- Lazily opens the upstream stream of a turn and spawns its receive loop. -/
def GetDialogflowStream (s : DialogflowService) (x : External) : Result :=
  match s.sessionStream with
  | some _ => { svc := s, out := [], err := none, panicked := false }
  | none =>
    match s.sessionClient with
    | none => { svc := s, out := [], err := none, panicked := true }
    | some _ =>
      if x.streamingDetectIntentErr then
        { svc := s, out := [Effect.streamingDetectIntent],
          err := some Error.initStreamingClient, panicked := false }
      else if x.firstSendErr then
        { svc := s,
          out := [Effect.streamingDetectIntent,
                  Effect.streamSend (StreamingDetectIntentRequest.audioConfig s.sessionPath)],
          err := some Error.initAudioStream, panicked := false }
      else
        { svc := { s with sessionStream := some StreamingDetectIntentClient.mk },
          out := [Effect.streamingDetectIntent,
                  Effect.streamSend (StreamingDetectIntentRequest.audioConfig s.sessionPath),
                  Effect.goRcvDialogflow],
          err := none, panicked := false }

def onTwilioMedia (s : DialogflowService) (audio : Bytes) (x : External) : Result :=
  let g := GetDialogflowStream s x
  if g.panicked then g
  else
    match g.err with
    | some e => { svc := g.svc, out := g.out, err := some (Error.getStreamer e), panicked := false }
    | none =>
      let o := g.out ++ [Effect.streamSend (StreamingDetectIntentRequest.inputAudio audio)]
      if x.audioSendErr then
        { svc := g.svc, out := o, err := some Error.sendAudio, panicked := false }
      else { svc := g.svc, out := o, err := none, panicked := false }

def redirect (s : DialogflowService) (x : External) : Result :=
  if x.voiceErr then
    { svc := s, out := [], err := some Error.voiceResponse, panicked := false }
  else if x.updateCallErr then
    { svc := s, out := [Effect.updateCall s.callSid s.redirectURL],
      err := some Error.updateCall, panicked := false }
  else
    let c := close s
    { svc := c.1, out := Effect.updateCall s.callSid s.redirectURL :: c.2,
      err := none, panicked := false }

/-- The error of `redirect` is printed and dropped; `close` follows in every case. -/
def onFinalResult (s : DialogflowService) (x : External) : Run :=
  let r := redirect s x
  let c := close r.svc
  { svc := c.1, out := r.out ++ c.2, panicked := false }

/-- The `switch` of the event loop, for one request. -/
def handleRequest (s : DialogflowService) (req : StreamInputRequest) (x : External) : Result :=
  if req.Event = "start" then
    match req.Start with
    | none => { svc := s, out := [], err := none, panicked := true }
    | some st => welcome { s with callSid := st.CallSid, streamSid := st.StreamSid } x
  else if req.Event = "media" then
    if !s.isAudioInputPaused then
      match req.Media with
      | none => { svc := s, out := [], err := none, panicked := true }
      | some m => onTwilioMedia s m.Payload x
    else { svc := s, out := [], err := none, panicked := false }
  else if req.Event = "mark" then
    match req.Mark with
    | none => { svc := s, out := [], err := none, panicked := true }
    | some m =>
      if m.Name = "endOfInteraction" then
        let r := onFinalResult s x
        { svc := r.svc, out := r.out, err := none, panicked := r.panicked }
      else { svc := s, out := [], err := none, panicked := false }
  else if req.Event = "stop" then
    let c := close s
    { svc := c.1, out := c.2, err := none, panicked := false }
  else { svc := s, out := [], err := none, panicked := false }

/-- The event loop. Each list item is the request a successful `ReadJSON` delivers,
with the answers of the outside world while it is handled; at the end of the list
`ReadJSON` fails and the loop is left with a nil error. -/
def HandleConnection : DialogflowService → List (StreamInputRequest × External) → Result
  | s, [] => { svc := s, out := [], err := none, panicked := false }
  | s, (req, x) :: rest =>
    if s.isStopped then { svc := s, out := [], err := none, panicked := false }
    else
      let r := handleRequest s req x
      if r.panicked then r
      else if r.err.isSome then r
      else
        let t := HandleConnection r.svc rest
        { svc := t.svc, out := r.out ++ t.out, err := t.err, panicked := t.panicked }

/-! ## Observations on effect lists -/

/-- A Clear outbound event. -/
def isClear : Effect → Bool
  | Effect.write r => decide (r.Event = "clear")
  | _ => false

/-- A Media outbound event. -/
def isMediaWrite : Effect → Bool
  | Effect.write r => decide (r.Event = "media")
  | _ => false

/-- A Mark outbound event named "endOfInteraction". -/
def isEndMark : Effect → Bool
  | Effect.write r => decide (r.Event = "mark" ∧ r.Mark = some { Name := "endOfInteraction" })
  | _ => false

/-- An invocation of the call-update operation. -/
def isUpdateCall : Effect → Bool
  | Effect.updateCall _ _ => true
  | _ => false

/-- An audio frame sent upstream. -/
def isAudioSend : Effect → Bool
  | Effect.streamSend (StreamingDetectIntentRequest.inputAudio _) => true
  | _ => false

/-- An upstream stream being opened. -/
def isStreamOpen : Effect → Bool
  | Effect.streamingDetectIntent => true
  | _ => false

/-- A write to the telephony channel. -/
def isWrite : Effect → Bool
  | Effect.write _ => true
  | _ => false

/-- The loop of `HandleConnection` has consumed its whole input and would go on. -/
def running (r : Result) : Bool :=
  !r.svc.isStopped && r.err.isNone && !r.panicked

/-- The header strip of this response does not panic. -/
def audioOk (resp : StreamingDetectIntentResponse) : Bool :=
  decide (resp.OutputAudio.length = 0 ∨ mulawHeaderSize ≤ resp.OutputAudio.length)

/-- The response carries a non-empty transcript. -/
def hasTranscript (resp : StreamingDetectIntentResponse) : Bool :=
  decide (0 < (GetTranscript resp.RecognitionResult).length)

/-- The query result of a response that carries a terminal intent. -/
def terminalResult (resp : StreamingDetectIntentResponse) : Option QueryResult :=
  match resp.QueryResult with
  | none => none
  | some qr =>
    match qr.Intent with
    | none => none
    | some i => if i.EndInteraction then some qr else none

/-- The terminal result of the last response of the list that carries one. -/
def lastTerminal : List StreamingDetectIntentResponse → Option QueryResult
  | [] => none
  | resp :: rest =>
    match lastTerminal rest with
    | some q => some q
    | none => terminalResult resp

/-! ## Sample inputs -/

def sampleService : DialogflowService := NewDialogflowService "https://h/redirect" "p/s"

def allOk : External :=
  { streamingDetectIntentErr := false, firstSendErr := false, audioSendErr := false,
    voiceErr := false, updateCallErr := false, recv := [] }

def startEvent (callSid streamSid : String) : StreamInputRequest :=
  { Event := "start",
    Start := some { AccountSid := "", StreamSid := streamSid, CallSid := callSid },
    Media := none, Mark := none, StreamSid := none }

def mediaEvent (payload : Bytes) : StreamInputRequest :=
  { Event := "media", Start := none,
    Media := some { Track := "inbound", Chunk := "1", Timestamp := "0", Payload := payload },
    Mark := none, StreamSid := none }

def markEvent (name : String) : StreamInputRequest :=
  { Event := "mark", Start := none, Media := none, Mark := some { Name := name },
    StreamSid := none }

def stopEvent : StreamInputRequest :=
  { Event := "stop", Start := none, Media := none, Mark := none, StreamSid := none }

/-- A session whose turn is open: the state the receive loop starts from. -/
def openTurn : DialogflowService :=
  { sampleService with callSid := "C", streamSid := "S",
                       sessionStream := some StreamingDetectIntentClient.mk }

/-- A response with a one-byte audio chunk and a partial transcript. -/
def shortAudio : StreamingDetectIntentResponse :=
  { OutputAudio := [0],
    RecognitionResult := some { MessageType := MessageType.TRANSCRIPT, Transcript := "hi" },
    QueryResult := none }

/-- A response with a partial transcript only. -/
def partialTranscript : StreamingDetectIntentResponse :=
  { OutputAudio := [],
    RecognitionResult := some { MessageType := MessageType.TRANSCRIPT, Transcript := "hello" },
    QueryResult := none }

def byeResult : QueryResult :=
  { QueryText := "bye", Intent := some { DisplayName := "end", EndInteraction := true } }

def goodbyeResult : QueryResult :=
  { QueryText := "goodbye", Intent := some { DisplayName := "end", EndInteraction := true } }

/-- A response carrying a terminal intent. -/
def byeResponse : StreamingDetectIntentResponse :=
  { OutputAudio := [], RecognitionResult := none, QueryResult := some byeResult }

/-- Another response carrying a terminal intent, with a different result. -/
def goodbyeResponse : StreamingDetectIntentResponse :=
  { OutputAudio := [], RecognitionResult := none, QueryResult := some goodbyeResult }

/-- A response carrying an intent that does not end the conversation. -/
def plainResponse : StreamingDetectIntentResponse :=
  { OutputAudio := [], RecognitionResult := none,
    QueryResult := some { QueryText := "hours",
                          Intent := some { DisplayName := "info", EndInteraction := false } } }

/-- A response whose audio chunk is a 58-byte header followed by three bytes. -/
def longAudio : StreamingDetectIntentResponse :=
  { OutputAudio := List.replicate 58 0 ++ [1, 2, 3], RecognitionResult := none,
    QueryResult := none }

/-- A session whose turn has seen the end-of-single-utterance marker. -/
def pausedTurn : DialogflowService :=
  { openTurn with isAudioInputPaused := true }

/-! ## The cleanup routine -/

/-- C5. Calling `close` a second time changes nothing and issues no call, so over both
calls the session client is closed at most once and the upstream stream is half-closed
at most once. `close` has no error result and no panicking step. -/
theorem close_twice (s : DialogflowService) :
    (close (close s).1).1 = (close s).1 ∧
    (close (close s).1).2 = [] ∧
    ((close s).2 ++ (close (close s).1).2).count Effect.clientClose ≤ 1 ∧
    ((close s).2 ++ (close (close s).1).2).count Effect.closeSend ≤ 1 := by
  rcases s with ⟨c, t, p, cl, stm, u, f, stopped, i, a⟩
  cases stopped <;> cases cl <;> cases stm <;> simp [close]

/-! ## The receive loop, one response -/

theorem rcvResponse_panicked (s : DialogflowService) (resp : StreamingDetectIntentResponse) :
    (rcvResponse s resp).panicked = !audioOk resp := by
  unfold rcvResponse audioOk sliceFrom
  by_cases h0 : 0 < resp.OutputAudio.length
  · by_cases h1 : mulawHeaderSize ≤ resp.OutputAudio.length
    · simp [h0, h1]
    · have h2 : resp.OutputAudio ≠ [] := List.length_pos.mp h0
      simp [h0, h1, h2]
  · have h2 : resp.OutputAudio = [] := by
      cases hl : resp.OutputAudio with
      | nil => rfl
      | cons a l => simp [hl] at h0
    simp [h2]

/-- C4. A response whose audio chunk has 58+N bytes does not panic and relays exactly
one Media outbound event: it carries the stream identifier of the session and its
payload is the chunk without its first 58 bytes, that is its last N bytes. -/
theorem header_strip (s : DialogflowService) (resp : StreamingDetectIntentResponse) (N : Nat)
    (h : resp.OutputAudio.length = mulawHeaderSize + N) :
    (rcvResponse s resp).panicked = false ∧
    (rcvResponse s resp).out.filter isMediaWrite =
      [Effect.write { StreamSid := s.streamSid, Event := "media",
                      Media := some { Payload := resp.OutputAudio.drop 58 }, Mark := none }] ∧
    (resp.OutputAudio.drop 58).length = N ∧
    resp.OutputAudio.drop 58 = resp.OutputAudio.rtake N := by
  have h58 : mulawHeaderSize = 58 := rfl
  rw [h58] at h
  refine ⟨?_, ?_, ?_, ?_⟩
  · rw [rcvResponse_panicked]; simp [audioOk, h, h58]
  · unfold rcvResponse sliceFrom
    have h0 : 0 < resp.OutputAudio.length := by omega
    have h1 : 58 ≤ resp.OutputAudio.length := by omega
    simp only [h0, h1, h58, if_true, Option.map_some']
    by_cases ht : 0 < (GetTranscript resp.RecognitionResult).length <;>
      cases hi : s.isInterrupted <;>
      simp [ht, hi, onDialogflowMedia, onInterrupted, isMediaWrite]
  · simp [h]
  · simp [List.rtake, h]

/-- What one response does to the session when its header strip does not panic. -/
theorem rcvResponse_ok (s : DialogflowService) (resp : StreamingDetectIntentResponse)
    (h : audioOk resp = true) :
    (rcvResponse s resp).panicked = false ∧
    (rcvResponse s resp).svc.sessionStream = s.sessionStream ∧
    (rcvResponse s resp).svc.isInterrupted = (s.isInterrupted || hasTranscript resp) ∧
    (rcvResponse s resp).svc.finalQueryResult =
      (match terminalResult resp with
       | some q => some q
       | none => s.finalQueryResult) ∧
    (rcvResponse s resp).out.countP isClear =
      (if !s.isInterrupted && hasTranscript resp then 1 else 0) ∧
    (rcvResponse s resp).out.countP isEndMark = 0 := by
  have hp := rcvResponse_panicked s resp
  rw [h] at hp
  refine ⟨by simpa using hp, ?_⟩
  rcases resp with ⟨audio, rr, qr⟩
  simp only [audioOk, decide_eq_true_eq] at h
  have haudio : (if 0 < audio.length then
      (sliceFrom audio mulawHeaderSize).map (onDialogflowMedia s) else some []) =
      some (if 0 < audio.length then onDialogflowMedia s (audio.drop mulawHeaderSize) else []) := by
    by_cases h0 : 0 < audio.length
    · have h1 : mulawHeaderSize ≤ audio.length := by omega
      simp [h0, h1, sliceFrom]
    · simp [h0]
  unfold rcvResponse
  simp only [haudio]
  rcases qr with _ | ⟨qt, _ | ⟨dn, ei⟩⟩ <;>
    by_cases ht : 0 < (GetTranscript rr).length <;>
    by_cases hm : GetMessageType rr = MessageType.END_OF_SINGLE_UTTERANCE <;>
    by_cases h0 : 0 < audio.length <;>
    cases hi : s.isInterrupted <;>
    (try cases ei) <;>
    simp [ht, hm, h0, hi, onDialogflowMedia, onInterrupted, isClear, isEndMark, hasTranscript,
      terminalResult]

/-- Fields and effect kinds that one response never touches, panic or not. -/
theorem rcvResponse_frame (s : DialogflowService) (resp : StreamingDetectIntentResponse) :
    (rcvResponse s resp).svc.callSid = s.callSid ∧
    (rcvResponse s resp).svc.redirectURL = s.redirectURL ∧
    (∀ e ∈ (rcvResponse s resp).out, isWrite e = true) := by
  rcases resp with ⟨audio, rr, qr⟩
  unfold rcvResponse sliceFrom
  rcases qr with _ | ⟨qt, _ | ⟨dn, ei⟩⟩ <;>
    by_cases ht : 0 < (GetTranscript rr).length <;>
    by_cases hm : GetMessageType rr = MessageType.END_OF_SINGLE_UTTERANCE <;>
    by_cases h0 : 0 < audio.length <;>
    by_cases h1 : mulawHeaderSize ≤ audio.length <;>
    cases hi : s.isInterrupted <;>
    (try cases ei) <;>
    simp [ht, hm, h0, h1, hi, onDialogflowMedia, onInterrupted, isWrite]

/-! ## The receive loop, one turn -/

/-- Fields and effect kinds that the loop never touches, panic or not. -/
theorem rcvLoop_frame (resps : List StreamingDetectIntentResponse) :
    ∀ s : DialogflowService,
      (rcvLoop s resps).svc.callSid = s.callSid ∧
      (rcvLoop s resps).svc.redirectURL = s.redirectURL ∧
      (∀ e ∈ (rcvLoop s resps).out, isWrite e = true) := by
  induction resps with
  | nil =>
    intro s
    unfold rcvLoop
    cases s.sessionStream <;> simp
  | cons resp rest ih =>
    intro s
    have hf := rcvResponse_frame s resp
    have hr := ih (rcvResponse s resp).svc
    unfold rcvLoop
    cases hs : s.sessionStream with
    | none => simp
    | some c =>
      cases hp : (rcvResponse s resp).panicked with
      | true => simpa [hp] using hf
      | false =>
        simp only [hp, Bool.false_eq_true, if_false]
        refine ⟨hr.1.trans hf.1, hr.2.1.trans hf.2.1, ?_⟩
        intro e he
        rcases List.mem_append.mp he with h1 | h2
        · exact hf.2.2 e h1
        · exact hr.2.2 e h2

/-- The loop of a turn whose stream is open and whose audio chunks all pass the header
strip: it runs to the end of the stream, leaves the turn handle cleared, records the
last terminal result, clears the playback buffer at most once. -/
theorem rcvLoop_ok (resps : List StreamingDetectIntentResponse) :
    ∀ s : DialogflowService, s.sessionStream.isSome = true →
      (∀ r ∈ resps, audioOk r = true) →
      (rcvLoop s resps).panicked = false ∧
      (rcvLoop s resps).svc.sessionStream = none ∧
      (rcvLoop s resps).svc.finalQueryResult =
        (match lastTerminal resps with
         | some q => some q
         | none => s.finalQueryResult) ∧
      (rcvLoop s resps).out.countP isClear =
        (if !s.isInterrupted && resps.any hasTranscript then 1 else 0) ∧
      (rcvLoop s resps).out.countP isEndMark = 0 := by
  induction resps with
  | nil =>
    intro s hs _
    unfold rcvLoop
    cases h : s.sessionStream with
    | none => simp [h] at hs
    | some c => simp [lastTerminal]
  | cons resp rest ih =>
    intro s hs hok
    have hresp := rcvResponse_ok s resp (hok resp (List.mem_cons_self _ _))
    obtain ⟨hp, hstream, hint, hfin, hclear, hmark⟩ := hresp
    have hrest := ih (rcvResponse s resp).svc (by rw [hstream]; exact hs)
      (fun r hr => hok r (List.mem_cons_of_mem _ hr))
    obtain ⟨rp, rstream, rfin, rclear, rmark⟩ := hrest
    unfold rcvLoop
    cases h : s.sessionStream with
    | none => simp [h] at hs
    | some c =>
      simp only [hp, Bool.false_eq_true, if_false]
      refine ⟨rp, rstream, ?_, ?_, ?_⟩
      · rw [rfin, hfin]
        simp only [lastTerminal]
        cases lastTerminal rest <;> rfl
      · rw [List.countP_append, hclear, rclear, hint]
        cases hi : s.isInterrupted <;> cases ht : hasTranscript resp <;> simp [hi, ht]
      · rw [List.countP_append, hmark, rmark]

theorem lastTerminal_isSome (resps : List StreamingDetectIntentResponse) :
    (lastTerminal resps).isSome = resps.any (fun r => (terminalResult r).isSome) := by
  induction resps with
  | nil => rfl
  | cons resp rest ih =>
    simp only [lastTerminal, List.any_cons]
    rw [← ih]
    cases lastTerminal rest <;> simp

/-- A turn whose stream is open and whose audio chunks all pass the header strip emits
exactly one Clear when some response carries a transcript, none otherwise. -/
theorem clear_once_when_audio_ok (s : DialogflowService)
    (resps : List StreamingDetectIntentResponse)
    (hs : s.sessionStream.isSome = true) (hi : s.isInterrupted = false)
    (hok : ∀ r ∈ resps, audioOk r = true) :
    (rcvDialogflow s resps).panicked = false ∧
    (rcvDialogflow s resps).out.countP isClear = (if resps.any hasTranscript then 1 else 0) := by
  obtain ⟨hp, _, _, hclear, _⟩ := rcvLoop_ok resps s hs hok
  unfold rcvDialogflow
  simp only [hp, Bool.false_eq_true, if_false]
  cases hf : (rcvLoop s resps).svc.finalQueryResult.isSome with
  | true =>
    simp only [if_true, List.countP_append, hclear, hi]
    simp [endOfInteraction, isClear]
  | false =>
    simp only [Bool.false_eq_true, if_false, hp, hclear, hi]
    simp

/-- C3. On the turn made of one response that carries a transcript and a one-byte audio
chunk, started with `isInterrupted = false`, the header strip panics before the
transcript is looked at: the loop stops and no Clear is emitted. -/
theorem clear_lost_on_short_audio :
    openTurn.isInterrupted = false ∧
    hasTranscript shortAudio = true ∧
    (rcvDialogflow openTurn [shortAudio]).panicked = true ∧
    (rcvDialogflow openTurn [shortAudio]).out.countP isClear = 0 := by
  decide

/-- C10. On a response whose audio chunk has one byte the slice `OutputAudio[58:]` is
out of bounds: the loop body panics and so does the receive loop. -/
theorem header_strip_short_chunk_panics :
    0 < shortAudio.OutputAudio.length ∧
    sliceFrom shortAudio.OutputAudio mulawHeaderSize = none ∧
    (rcvResponse openTurn shortAudio).panicked = true ∧
    (rcvDialogflow openTurn [shortAudio]).panicked = true := by
  decide

/-- The header strip panics on every chunk of 1 to 57 bytes. -/
theorem header_strip_panics_below_58 (s : DialogflowService)
    (resp : StreamingDetectIntentResponse)
    (h0 : 0 < resp.OutputAudio.length) (h1 : resp.OutputAudio.length < mulawHeaderSize) :
    (rcvResponse s resp).panicked = true := by
  rw [rcvResponse_panicked]
  simp only [audioOk, Bool.not_eq_true', decide_eq_false_iff_not]
  omega

/-- C8, as stated, fails: with a terminal result recorded by one response, a later
response of the same turn that carries a terminal intent replaces it. -/
theorem final_result_overwritten :
    (rcvResponse openTurn byeResponse).svc.finalQueryResult = some byeResult ∧
    (rcvResponse (rcvResponse openTurn byeResponse).svc goodbyeResponse).svc.finalQueryResult
      = some goodbyeResult ∧
    (rcvDialogflow openTurn [byeResponse, goodbyeResponse]).svc.finalQueryResult
      = some goodbyeResult ∧
    byeResult ≠ goodbyeResult := by
  decide

/-- C8, amended. In a turn whose stream is open and whose audio chunks pass the header
strip, the receive loop runs to the end and `finalQueryResult` then holds the result of
the last response of the turn that carries a terminal intent, whatever was recorded
before; it keeps its earlier value only when no response of the turn carries one. -/
theorem final_result_is_last_terminal (s : DialogflowService)
    (resps : List StreamingDetectIntentResponse)
    (hs : s.sessionStream.isSome = true) (hok : ∀ r ∈ resps, audioOk r = true) :
    (rcvDialogflow s resps).panicked = false ∧
    (rcvDialogflow s resps).svc.finalQueryResult =
      (match lastTerminal resps with
       | some q => some q
       | none => s.finalQueryResult) := by
  obtain ⟨hp, _, hfin, _, _⟩ := rcvLoop_ok resps s hs hok
  unfold rcvDialogflow
  simp only [hp, Bool.false_eq_true, if_false]
  cases hf : (rcvLoop s resps).svc.finalQueryResult.isSome with
  | true => simp only [if_true]; exact ⟨trivial, hfin⟩
  | false => simp only [Bool.false_eq_true, if_false]; exact ⟨hp, hfin⟩

theorem final_result_is_last_terminal_witness :
    openTurn.sessionStream.isSome = true ∧
    (∀ r ∈ [byeResponse, plainResponse, goodbyeResponse], audioOk r = true) ∧
    (rcvDialogflow openTurn [byeResponse, plainResponse, goodbyeResponse]).panicked = false ∧
    (rcvDialogflow openTurn [byeResponse, plainResponse, goodbyeResponse]).svc.finalQueryResult =
      (match lastTerminal [byeResponse, plainResponse, goodbyeResponse] with
       | some q => some q
       | none => openTurn.finalQueryResult) :=
  ⟨by decide, by decide,
   final_result_is_last_terminal openTurn [byeResponse, plainResponse, goodbyeResponse]
     (by decide) (by decide)⟩

/-- C9, as stated, fails: the greeting turn records a terminal result, a Media event
opens the next turn, and that turn, whose only response carries no terminal intent,
still emits the Mark when its stream ends. -/
theorem end_mark_from_earlier_turn :
    terminalResult plainResponse = none ∧
    (rcvDialogflow
      (HandleConnection sampleService
        [(startEvent "C" "S", { allOk with recv := [byeResponse] }),
         (mediaEvent [1], allOk)]).svc
      [plainResponse]).out.countP isEndMark = 1 := by
  decide

/-- C9, amended. When the stream of a turn ends (stream open, audio chunks passing the
header strip), the receive loop emits exactly one Mark named "endOfInteraction" if
`finalQueryResult` was already recorded before the turn or a response of the turn
carries a terminal intent, and no Mark otherwise. -/
theorem end_mark_iff_recorded (s : DialogflowService)
    (resps : List StreamingDetectIntentResponse)
    (hs : s.sessionStream.isSome = true) (hok : ∀ r ∈ resps, audioOk r = true) :
    (rcvDialogflow s resps).panicked = false ∧
    (rcvDialogflow s resps).out.countP isEndMark =
      (if s.finalQueryResult.isSome || resps.any (fun r => (terminalResult r).isSome)
       then 1 else 0) := by
  obtain ⟨hp, _, hfin, _, hmark⟩ := rcvLoop_ok resps s hs hok
  have hsome : (rcvLoop s resps).svc.finalQueryResult.isSome =
      (s.finalQueryResult.isSome || resps.any (fun r => (terminalResult r).isSome)) := by
    rw [hfin, ← lastTerminal_isSome]
    cases lastTerminal resps <;> simp
  unfold rcvDialogflow
  simp only [hp, Bool.false_eq_true, if_false]
  rw [← hsome]
  cases hf : (rcvLoop s resps).svc.finalQueryResult.isSome with
  | true =>
    simp only [if_true, List.countP_append, hmark]
    simp [endOfInteraction, isEndMark]
  | false =>
    simp only [Bool.false_eq_true, if_false, hp, hmark]
    simp

theorem end_mark_iff_recorded_witness :
    openTurn.sessionStream.isSome = true ∧
    (∀ r ∈ [plainResponse, byeResponse], audioOk r = true) ∧
    (rcvDialogflow openTurn [plainResponse, byeResponse]).panicked = false ∧
    (rcvDialogflow openTurn [plainResponse, byeResponse]).out.countP isEndMark =
      (if openTurn.finalQueryResult.isSome ||
          [plainResponse, byeResponse].any (fun r => (terminalResult r).isSome)
       then 1 else 0) :=
  ⟨by decide, by decide,
   end_mark_iff_recorded openTurn [plainResponse, byeResponse] (by decide) (by decide)⟩

theorem header_strip_witness :
    longAudio.OutputAudio.length = mulawHeaderSize + 3 ∧
    (rcvResponse openTurn longAudio).panicked = false ∧
    (rcvResponse openTurn longAudio).out.filter isMediaWrite =
      [Effect.write { StreamSid := openTurn.streamSid, Event := "media",
                      Media := some { Payload := longAudio.OutputAudio.drop 58 },
                      Mark := none }] ∧
    (longAudio.OutputAudio.drop 58).length = 3 ∧
    longAudio.OutputAudio.drop 58 = longAudio.OutputAudio.rtake 3 :=
  ⟨by decide, header_strip openTurn longAudio 3 (by decide)⟩

/-- Fields and effect kinds that a turn never touches, panic or not. -/
theorem rcvDialogflow_frame (s : DialogflowService)
    (resps : List StreamingDetectIntentResponse) :
    (rcvDialogflow s resps).svc.callSid = s.callSid ∧
    (rcvDialogflow s resps).svc.redirectURL = s.redirectURL ∧
    (∀ e ∈ (rcvDialogflow s resps).out, isWrite e = true) := by
  obtain ⟨h1, h2, h3⟩ := rcvLoop_frame resps s
  unfold rcvDialogflow
  cases hp : (rcvLoop s resps).panicked with
  | true => simpa [hp] using ⟨h1, h2, h3⟩
  | false =>
    cases hf : (rcvLoop s resps).svc.finalQueryResult.isSome with
    | true =>
      simp only [hp, hf, Bool.false_eq_true, if_false, if_true]
      refine ⟨h1, h2, ?_⟩
      intro e he
      rcases List.mem_append.mp he with ha | hb
      · exact h3 e ha
      · simp [endOfInteraction] at hb
        rw [hb]; rfl
    | false => simpa [hp, hf] using ⟨h1, h2, h3⟩

theorem countP_isUpdateCall_of_writes (out : List Effect)
    (h : ∀ e ∈ out, isWrite e = true) : out.countP isUpdateCall = 0 := by
  rw [List.countP_eq_zero]
  intro e he
  have hw := h e he
  cases e <;> simp [isWrite, isUpdateCall] at hw ⊢

/-! ## The inbound side: frame facts -/

theorem close_frame (s : DialogflowService) :
    (close s).1.callSid = s.callSid ∧
    (close s).1.redirectURL = s.redirectURL ∧
    (close s).2.countP isUpdateCall = 0 ∧
    (s.isStopped = false →
      (close s).1.isStopped = true ∧ (close s).1.sessionClient = none ∧
      (close s).1.sessionStream = none ∧
      (s.sessionClient.isSome = true → (close s).2.count Effect.clientClose = 1) ∧
      (s.sessionStream.isSome = true → (close s).2.count Effect.closeSend = 1)) ∧
    (s.isStopped = true → close s = (s, [])) := by
  rcases s with ⟨c, t, p, cl, stm, u, f, stopped, i, a⟩
  cases stopped <;> cases cl <;> cases stm <;> simp [close, isUpdateCall]

theorem welcome_frame (s : DialogflowService) (x : External) :
    (welcome s x).svc.callSid = s.callSid ∧
    (welcome s x).svc.redirectURL = s.redirectURL ∧
    (welcome s x).out.countP isUpdateCall = 0 := by
  rcases s with ⟨c, t, p, cl, stm, u, f, stopped, i, a⟩
  cases cl with
  | none => simp [welcome]
  | some k =>
    have hf := rcvDialogflow_frame
      { callSid := c, streamSid := t, sessionPath := p, sessionClient := some k,
        sessionStream := some StreamingDetectIntentClient.mk, redirectURL := u,
        finalQueryResult := f, isStopped := stopped, isInterrupted := i,
        isAudioInputPaused := a } x.recv
    have hc := countP_isUpdateCall_of_writes _ hf.2.2
    cases ho : x.streamingDetectIntentErr <;> cases hsd : x.firstSendErr <;>
      simp [welcome, ho, hsd, isUpdateCall, hf.1, hf.2.1, hc]

theorem onTwilioMedia_frame (s : DialogflowService) (audio : Bytes) (x : External) :
    (onTwilioMedia s audio x).svc.callSid = s.callSid ∧
    (onTwilioMedia s audio x).svc.redirectURL = s.redirectURL ∧
    (onTwilioMedia s audio x).out.countP isUpdateCall = 0 := by
  unfold onTwilioMedia GetDialogflowStream
  cases hst : s.sessionStream <;> cases hcl : s.sessionClient <;>
    cases ho : x.streamingDetectIntentErr <;> cases hsd : x.firstSendErr <;>
    cases ha : x.audioSendErr <;> simp [isUpdateCall]

theorem onFinalResult_frame (s : DialogflowService) (x : External) :
    (onFinalResult s x).svc.callSid = s.callSid ∧
    (onFinalResult s x).svc.redirectURL = s.redirectURL ∧
    (onFinalResult s x).panicked = false ∧
    (onFinalResult s x).svc.isStopped = true ∧
    (onFinalResult s x).out.countP isUpdateCall ≤ 1 ∧
    (x.voiceErr = false →
      (onFinalResult s x).out.filter isUpdateCall = [Effect.updateCall s.callSid s.redirectURL]) ∧
    (s.isStopped = false →
      (onFinalResult s x).svc.isStopped = true ∧ (onFinalResult s x).svc.sessionClient = none ∧
      (onFinalResult s x).svc.sessionStream = none ∧
      (s.sessionClient.isSome = true →
        (onFinalResult s x).out.count Effect.clientClose = 1) ∧
      (s.sessionStream.isSome = true →
        (onFinalResult s x).out.count Effect.closeSend = 1)) := by
  rcases s with ⟨c, t, p, cl, stm, u, f, stopped, i, a⟩
  cases stopped <;> cases cl <;> cases stm <;>
    cases hv : x.voiceErr <;> cases hu : x.updateCallErr <;>
    simp [onFinalResult, redirect, close, isUpdateCall, hv, hu]

theorem handleRequest_frame (s : DialogflowService) (req : StreamInputRequest) (x : External) :
    (req.Event ≠ "start" → (handleRequest s req x).svc.callSid = s.callSid) ∧
    (∀ st, req.Event = "start" → req.Start = some st → (handleRequest s req x).panicked = false →
      (handleRequest s req x).svc.callSid = st.CallSid) ∧
    (handleRequest s req x).svc.redirectURL = s.redirectURL ∧
    ((handleRequest s req x).svc.isStopped = false →
      (handleRequest s req x).out.countP isUpdateCall = 0) := by
  unfold handleRequest
  by_cases h1 : req.Event = "start"
  · simp only [h1, if_true]
    cases hst : req.Start with
    | none => simp
    | some st =>
      have hw := welcome_frame { s with callSid := st.CallSid, streamSid := st.StreamSid } x
      simp only [ne_eq, not_true_eq_false, false_implies, true_and]
      refine ⟨?_, hw.2.1, fun _ => hw.2.2⟩
      intro st2 _ h2 _
      cases h2
      exact hw.1
  · simp only [h1, if_false]
    by_cases h2 : req.Event = "media"
    · simp only [h2, if_true]
      cases hp : s.isAudioInputPaused with
      | true => simp
      | false =>
        cases hm : req.Media with
        | none => simp
        | some m =>
          have hw := onTwilioMedia_frame s m.Payload x
          simp [hw.1, hw.2.1, hw.2.2]
    · simp only [h2, if_false]
      by_cases h3 : req.Event = "mark"
      · simp only [h3, if_true]
        cases hm : req.Mark with
        | none => simp
        | some m =>
          by_cases hn : m.Name = "endOfInteraction"
          · have hw := onFinalResult_frame s x
            simp only [hn, if_true]
            refine ⟨fun _ => hw.1, by simp, hw.2.1, ?_⟩
            intro hstop
            rw [hw.2.2.2.1] at hstop
            cases hstop
          · simp [hn]
      · simp only [h3, if_false]
        by_cases h4 : req.Event = "stop"
        · have hc := close_frame s
          simp [h4, hc.1, hc.2.1, hc.2.2.1]
        · simp [h4]

/-! ## The event loop -/

theorem HandleConnection_stopped (s : DialogflowService)
    (evs : List (StreamInputRequest × External)) (h : s.isStopped = true) :
    HandleConnection s evs = { svc := s, out := [], err := none, panicked := false } := by
  cases evs with
  | nil => rfl
  | cons e rest =>
    rcases e with ⟨req, x⟩
    simp [HandleConnection, h]

/-- While the loop goes on, the run over a list of events splits at any point. -/
theorem HandleConnection_append (pre rest : List (StreamInputRequest × External)) :
    ∀ s : DialogflowService, running (HandleConnection s pre) = true →
      HandleConnection s (pre ++ rest) =
        { svc := (HandleConnection (HandleConnection s pre).svc rest).svc,
          out := (HandleConnection s pre).out ++ (HandleConnection (HandleConnection s pre).svc rest).out,
          err := (HandleConnection (HandleConnection s pre).svc rest).err,
          panicked := (HandleConnection (HandleConnection s pre).svc rest).panicked } := by
  induction pre with
  | nil =>
    intro s _
    simp [HandleConnection]
  | cons e pre ih =>
    intro s hrun
    rcases e with ⟨req, x⟩
    cases hs : s.isStopped with
    | true =>
      rw [HandleConnection_stopped s _ hs] at hrun
      simp [running, hs] at hrun
    | false =>
      cases hp : (handleRequest s req x).panicked with
      | true =>
        simp [HandleConnection, hs, hp, running] at hrun
      | false =>
        cases he : (handleRequest s req x).err with
        | some e =>
          simp [HandleConnection, hs, hp, he, running] at hrun
        | none =>
          have hrun2 : running (HandleConnection (handleRequest s req x).svc pre) = true := by
            simpa [HandleConnection, hs, hp, he, running] using hrun
          have := ih (handleRequest s req x).svc hrun2
          simp [HandleConnection, hs, hp, he, this]

/-- The call identifier is only written by a Start event, the redirect address never. -/
theorem HandleConnection_frame (evs : List (StreamInputRequest × External)) :
    ∀ s : DialogflowService,
      ((∀ e ∈ evs, e.1.Event ≠ "start") → (HandleConnection s evs).svc.callSid = s.callSid) ∧
      (HandleConnection s evs).svc.redirectURL = s.redirectURL := by
  induction evs with
  | nil => intro s; simp [HandleConnection]
  | cons e rest ih =>
    intro s
    rcases e with ⟨req, x⟩
    have hf := handleRequest_frame s req x
    have hr := ih (handleRequest s req x).svc
    cases hs : s.isStopped with
    | true => simp [HandleConnection, hs]
    | false =>
      cases hp : (handleRequest s req x).panicked with
      | true =>
        simp only [HandleConnection, hs, hp, Bool.false_eq_true, if_false, if_true]
        exact ⟨fun h => hf.1 (h (req, x) (List.mem_cons_self _ _)), hf.2.2.1⟩
      | false =>
        cases he : (handleRequest s req x).err with
        | some e =>
          simp only [HandleConnection, hs, hp, he, Bool.false_eq_true, if_false, if_true,
            Option.isSome_some]
          exact ⟨fun h => hf.1 (h (req, x) (List.mem_cons_self _ _)), hf.2.2.1⟩
        | none =>
          simp only [HandleConnection, hs, hp, he, Bool.false_eq_true, if_false,
            Option.isSome_none]
          refine ⟨fun h => ?_, hr.2.trans hf.2.2.1⟩
          rw [hr.1 (fun e he => h e (List.mem_cons_of_mem _ he))]
          exact hf.1 (h (req, x) (List.mem_cons_self _ _))

/-- A run that leaves the session not stopped has not invoked the call-update
operation. -/
theorem HandleConnection_no_updateCall (evs : List (StreamInputRequest × External)) :
    ∀ s : DialogflowService, (HandleConnection s evs).svc.isStopped = false →
      (HandleConnection s evs).out.countP isUpdateCall = 0 := by
  induction evs with
  | nil => intro s _; simp [HandleConnection]
  | cons e rest ih =>
    intro s
    rcases e with ⟨req, x⟩
    have hf := handleRequest_frame s req x
    cases hs : s.isStopped with
    | true => simp [HandleConnection, hs]
    | false =>
      cases hp : (handleRequest s req x).panicked with
      | true =>
        simp only [HandleConnection, hs, hp, Bool.false_eq_true, if_false, if_true]
        exact hf.2.2.2
      | false =>
        cases he : (handleRequest s req x).err with
        | some e =>
          simp only [HandleConnection, hs, hp, he, Bool.false_eq_true, if_false, if_true,
            Option.isSome_some]
          exact hf.2.2.2
        | none =>
          simp only [HandleConnection, hs, hp, he, Bool.false_eq_true, if_false,
            Option.isSome_none]
          intro hfinal
          have hrest := ih (handleRequest s req x).svc hfinal
          cases hmid : (handleRequest s req x).svc.isStopped with
          | true =>
            rw [HandleConnection_stopped _ _ hmid] at hfinal
            simp [hmid] at hfinal
          | false =>
            rw [List.countP_append, hrest, hf.2.2.2 hmid]

/-- The loop step for a Mark named "endOfInteraction" read while the session runs: the
redirect sequence, after which nothing more is read. -/
theorem HandleConnection_endMark (s : DialogflowService) (req : StreamInputRequest) (m : Mark)
    (x : External) (rest : List (StreamInputRequest × External))
    (hs : s.isStopped = false) (he : req.Event = "mark") (hm : req.Mark = some m)
    (hn : m.Name = "endOfInteraction") :
    HandleConnection s ((req, x) :: rest) =
      { svc := (onFinalResult s x).svc, out := (onFinalResult s x).out, err := none,
        panicked := false } := by
  have hf := onFinalResult_frame s x
  have hreq : handleRequest s req x =
      { svc := (onFinalResult s x).svc, out := (onFinalResult s x).out, err := none,
        panicked := false } := by
    simp [handleRequest, he, hm, hn, hf.2.2.1]
  simp [HandleConnection, hs, hreq, HandleConnection_stopped _ rest hf.2.2.2.1]

/-- C2. While `isAudioInputPaused` is set, Media events, however many and whatever
they carry, are dropped by the event loop: no call leaves the process, so no audio
frame is sent upstream and no upstream stream is opened, and the session is unchanged. -/
theorem paused_media_dropped (evs : List (StreamInputRequest × External))
    (s : DialogflowService) (hp : s.isAudioInputPaused = true)
    (hm : ∀ e ∈ evs, e.1.Event = "media") :
    (HandleConnection s evs).out.countP isAudioSend = 0 ∧
    (HandleConnection s evs).out.countP isStreamOpen = 0 ∧
    (HandleConnection s evs).out = [] ∧
    (HandleConnection s evs).svc = s ∧
    (HandleConnection s evs).err = none ∧
    (HandleConnection s evs).panicked = false := by
  have key : HandleConnection s evs = { svc := s, out := [], err := none, panicked := false } := by
    induction evs with
    | nil => rfl
    | cons e rest ih =>
      rcases e with ⟨req, x⟩
      have he : req.Event = "media" := hm (req, x) (List.mem_cons_self _ _)
      have hreq : handleRequest s req x =
          { svc := s, out := [], err := none, panicked := false } := by
        simp [handleRequest, he, hp]
      have hrest := ih (fun e h => hm e (List.mem_cons_of_mem _ h))
      cases hs : s.isStopped with
      | true => exact HandleConnection_stopped s _ hs
      | false => simp [HandleConnection, hs, hreq, hrest]
  rw [key]
  simp

theorem paused_media_dropped_witness :
    pausedTurn.isAudioInputPaused = true ∧
    (∀ e ∈ [(mediaEvent [1, 2], allOk), (mediaEvent [3], allOk)], e.1.Event = "media") ∧
    (HandleConnection pausedTurn
      [(mediaEvent [1, 2], allOk), (mediaEvent [3], allOk)]).out.countP isAudioSend = 0 ∧
    (HandleConnection pausedTurn
      [(mediaEvent [1, 2], allOk), (mediaEvent [3], allOk)]).out.countP isStreamOpen = 0 ∧
    (HandleConnection pausedTurn [(mediaEvent [1, 2], allOk), (mediaEvent [3], allOk)]).out = [] ∧
    (HandleConnection pausedTurn
      [(mediaEvent [1, 2], allOk), (mediaEvent [3], allOk)]).svc = pausedTurn ∧
    (HandleConnection pausedTurn
      [(mediaEvent [1, 2], allOk), (mediaEvent [3], allOk)]).err = none ∧
    (HandleConnection pausedTurn
      [(mediaEvent [1, 2], allOk), (mediaEvent [3], allOk)]).panicked = false :=
  ⟨by decide, by decide,
   paused_media_dropped [(mediaEvent [1, 2], allOk), (mediaEvent [3], allOk)] pausedTurn
     (by decide) (by decide)⟩

/-- C7. When the event loop reads a Mark named "endOfInteraction" on a running session,
then whether the call-update request succeeds or fails (and whether the control
document builds or not): the request is issued at most once, exactly once with the
call identifier of the session when the document builds; the session ends with
`isStopped` set, the session client and the upstream stream released (each by one call
when it was open); the loop returns a nil error, without panic, and reads nothing
more. -/
theorem redirect_failure_not_propagated (s : DialogflowService) (req : StreamInputRequest)
    (m : Mark) (x : External) (rest : List (StreamInputRequest × External))
    (hs : s.isStopped = false) (he : req.Event = "mark") (hm : req.Mark = some m)
    (hn : m.Name = "endOfInteraction") :
    (HandleConnection s ((req, x) :: rest)).err = none ∧
    (HandleConnection s ((req, x) :: rest)).panicked = false ∧
    (HandleConnection s ((req, x) :: rest)).svc.isStopped = true ∧
    (HandleConnection s ((req, x) :: rest)).svc.sessionClient = none ∧
    (HandleConnection s ((req, x) :: rest)).svc.sessionStream = none ∧
    (HandleConnection s ((req, x) :: rest)).out.countP isUpdateCall ≤ 1 ∧
    (x.voiceErr = false →
      (HandleConnection s ((req, x) :: rest)).out.filter isUpdateCall =
        [Effect.updateCall s.callSid s.redirectURL]) ∧
    (s.sessionClient.isSome = true →
      (HandleConnection s ((req, x) :: rest)).out.count Effect.clientClose = 1) ∧
    (s.sessionStream.isSome = true →
      (HandleConnection s ((req, x) :: rest)).out.count Effect.closeSend = 1) ∧
    HandleConnection s ((req, x) :: rest) = HandleConnection s [(req, x)] := by
  obtain ⟨_, _, _, hstop, hcount, hfilter, hclose⟩ := onFinalResult_frame s x
  obtain ⟨_, hcl, hstm, hcc, hcs⟩ := hclose hs
  rw [HandleConnection_endMark s req m x rest hs he hm hn,
    HandleConnection_endMark s req m x [] hs he hm hn]
  exact ⟨rfl, rfl, hstop, hcl, hstm, hcount, hfilter, hcc, hcs, rfl⟩

theorem redirect_failure_not_propagated_witness :
    openTurn.isStopped = false ∧
    (HandleConnection openTurn
      [(markEvent "endOfInteraction", { allOk with updateCallErr := true }),
       (stopEvent, allOk)]).err = none ∧
    (HandleConnection openTurn
      [(markEvent "endOfInteraction", { allOk with updateCallErr := true }),
       (stopEvent, allOk)]).svc.isStopped = true ∧
    (HandleConnection openTurn
      [(markEvent "endOfInteraction", { allOk with updateCallErr := true }),
       (stopEvent, allOk)]).out.countP isUpdateCall ≤ 1 :=
  have h := redirect_failure_not_propagated openTurn (markEvent "endOfInteraction")
    { Name := "endOfInteraction" } { allOk with updateCallErr := true } [(stopEvent, allOk)]
    (by decide) (by decide) (by decide) (by decide)
  ⟨by decide, h.1, h.2.2.1, h.2.2.2.2.2.1⟩

theorem running_cons (s : DialogflowService) (req : StreamInputRequest) (x : External)
    (rest : List (StreamInputRequest × External))
    (h : running (HandleConnection s ((req, x) :: rest)) = true) :
    s.isStopped = false ∧ (handleRequest s req x).panicked = false ∧
    (handleRequest s req x).err = none ∧
    running (HandleConnection (handleRequest s req x).svc rest) = true ∧
    (HandleConnection s ((req, x) :: rest)).svc =
      (HandleConnection (handleRequest s req x).svc rest).svc := by
  cases hs : s.isStopped with
  | true =>
    rw [HandleConnection_stopped s _ hs] at h
    simp [running, hs] at h
  | false =>
    cases hp : (handleRequest s req x).panicked with
    | true => simp [HandleConnection, hs, hp, running] at h
    | false =>
      cases he : (handleRequest s req x).err with
      | some e => simp [HandleConnection, hs, hp, he, running] at h
      | none =>
        refine ⟨rfl, rfl, rfl, ?_, ?_⟩
        · simpa [HandleConnection, hs, hp, he, running] using h
        · simp [HandleConnection, hs, hp, he]

/-- After a Start event that no later Start follows, a loop that still goes on holds
the call identifier of that Start. -/
theorem callSid_after_start (pre mid : List (StreamInputRequest × External))
    (reqS : StreamInputRequest) (st : Start) (xs : External)
    (hS : reqS.Event = "start") (hSt : reqS.Start = some st)
    (hmid : ∀ e ∈ mid, e.1.Event ≠ "start") :
    ∀ s : DialogflowService, running (HandleConnection s (pre ++ (reqS, xs) :: mid)) = true →
      (HandleConnection s (pre ++ (reqS, xs) :: mid)).svc.callSid = st.CallSid := by
  induction pre with
  | nil =>
    intro s hrun
    obtain ⟨_, hp, _, _, hsvc⟩ := running_cons s reqS xs mid hrun
    rw [List.nil_append, hsvc, (HandleConnection_frame mid _).1 hmid]
    exact (handleRequest_frame s reqS xs).2.1 st hS hSt hp
  | cons e pre ih =>
    intro s hrun
    rcases e with ⟨req, x⟩
    obtain ⟨_, _, _, hrun2, hsvc⟩ := running_cons s req x (pre ++ (reqS, xs) :: mid) hrun
    rw [List.cons_append, hsvc]
    exact ih _ hrun2

/-- C6, as stated, fails: on a session that has processed no event at all, two Media
events are handled without error; the first opens the upstream stream, both payloads
are sent upstream. -/
theorem media_before_start_forwarded :
    (HandleConnection sampleService
      [(mediaEvent [1, 2], allOk), (mediaEvent [3], allOk)]).err = none ∧
    (HandleConnection sampleService
      [(mediaEvent [1, 2], allOk), (mediaEvent [3], allOk)]).panicked = false ∧
    (HandleConnection sampleService
      [(mediaEvent [1, 2], allOk), (mediaEvent [3], allOk)]).out =
      [Effect.streamingDetectIntent,
       Effect.streamSend (StreamingDetectIntentRequest.audioConfig "p/s"),
       Effect.goRcvDialogflow,
       Effect.streamSend (StreamingDetectIntentRequest.inputAudio [1, 2]),
       Effect.streamSend (StreamingDetectIntentRequest.inputAudio [3])] := by
  decide

/-- C6, amended. A Media event read on a running session (not stopped, session client
present) whose audio input is not paused, a Start event processed or not, is never
rejected as out of order. With no turn open the upstream stream is opened lazily: the
open is attempted first, and when it and the first send succeed the audio configuration
is sent, the stream is stored as the turn handle and the receive loop is spawned before
the payload is sent; with a turn open only the payload is sent. The handling fails
exactly when the lazy open or the first send on the new stream fails (no turn open), or
when the audio send fails. Without such a failure the payload is sent upstream once and
the loop goes on with the next event; with one, the loop returns the error of this event
and reads nothing more. -/
theorem media_before_start (s : DialogflowService) (req : StreamInputRequest) (m : Media)
    (x : External) (rest : List (StreamInputRequest × External))
    (hs : s.isStopped = false) (hp : s.isAudioInputPaused = false)
    (hc : s.sessionClient.isSome = true)
    (he : req.Event = "media") (hm : req.Media = some m) :
    (handleRequest s req x).panicked = false ∧
    (handleRequest s req x).err.isSome =
      ((s.sessionStream.isNone && (x.streamingDetectIntentErr || x.firstSendErr))
        || x.audioSendErr) ∧
    ((handleRequest s req x).err = none →
      (handleRequest s req x).out.filter isAudioSend =
        [Effect.streamSend (StreamingDetectIntentRequest.inputAudio m.Payload)] ∧
      HandleConnection s ((req, x) :: rest) =
        { svc := (HandleConnection (handleRequest s req x).svc rest).svc,
          out := (handleRequest s req x).out ++
                 (HandleConnection (handleRequest s req x).svc rest).out,
          err := (HandleConnection (handleRequest s req x).svc rest).err,
          panicked := (HandleConnection (handleRequest s req x).svc rest).panicked }) ∧
    ((handleRequest s req x).err ≠ none →
      HandleConnection s ((req, x) :: rest) = handleRequest s req x) ∧
    (s.sessionStream = none →
      (handleRequest s req x).out.countP isStreamOpen = 1 ∧
      (handleRequest s req x).out.head? = some Effect.streamingDetectIntent ∧
      (x.streamingDetectIntentErr = false → x.firstSendErr = false →
        (handleRequest s req x).out =
          [Effect.streamingDetectIntent,
           Effect.streamSend (StreamingDetectIntentRequest.audioConfig s.sessionPath),
           Effect.goRcvDialogflow,
           Effect.streamSend (StreamingDetectIntentRequest.inputAudio m.Payload)] ∧
        (handleRequest s req x).svc =
          { s with sessionStream := some StreamingDetectIntentClient.mk }) ∧
      (x.streamingDetectIntentErr = true →
        (handleRequest s req x).out = [Effect.streamingDetectIntent] ∧
        (handleRequest s req x).svc = s ∧
        (handleRequest s req x).err = some (Error.getStreamer Error.initStreamingClient)) ∧
      (x.streamingDetectIntentErr = false → x.firstSendErr = true →
        (handleRequest s req x).out =
          [Effect.streamingDetectIntent,
           Effect.streamSend (StreamingDetectIntentRequest.audioConfig s.sessionPath)] ∧
        (handleRequest s req x).svc = s ∧
        (handleRequest s req x).err = some (Error.getStreamer Error.initAudioStream))) ∧
    (s.sessionStream.isSome = true →
      (handleRequest s req x).out =
        [Effect.streamSend (StreamingDetectIntentRequest.inputAudio m.Payload)] ∧
      (handleRequest s req x).out.countP isStreamOpen = 0 ∧
      (handleRequest s req x).svc = s) := by
  have hreq : handleRequest s req x = onTwilioMedia s m.Payload x := by
    simp [handleRequest, he, hm, hp]
  have hloop : ∀ r : Result, handleRequest s req x = r → r.panicked = false →
      (r.err = none → HandleConnection s ((req, x) :: rest) =
        { svc := (HandleConnection r.svc rest).svc,
          out := r.out ++ (HandleConnection r.svc rest).out,
          err := (HandleConnection r.svc rest).err,
          panicked := (HandleConnection r.svc rest).panicked }) ∧
      (r.err ≠ none → HandleConnection s ((req, x) :: rest) = r) := by
    intro r hr hpan
    subst hr
    constructor
    · intro herr
      simp [HandleConnection, hs, hpan, herr]
    · intro herr
      have : (handleRequest s req x).err.isSome = true := by
        cases h : (handleRequest s req x).err with
        | none => exact absurd h herr
        | some e => rfl
      simp [HandleConnection, hs, hpan, this]
  rw [hreq]
  have hpan : (onTwilioMedia s m.Payload x).panicked = false := by
    rcases s with ⟨c, t, p, cl, stm, u, f, stopped, i, a⟩
    cases cl with
    | none => simp at hc
    | some k =>
      cases stm <;> cases ho : x.streamingDetectIntentErr <;> cases hsd : x.firstSendErr <;>
        cases ha : x.audioSendErr <;> simp [onTwilioMedia, GetDialogflowStream, ho, hsd, ha]
  obtain ⟨h1, h2⟩ := hloop _ hreq hpan
  refine ⟨hpan, ?_, fun h => ⟨?_, h1 h⟩, h2, ?_, ?_⟩
  · rcases s with ⟨c, t, p, cl, stm, u, f, stopped, i, a⟩
    cases cl with
    | none => simp at hc
    | some k =>
      cases stm <;> cases ho : x.streamingDetectIntentErr <;> cases hsd : x.firstSendErr <;>
        cases ha : x.audioSendErr <;> simp [onTwilioMedia, GetDialogflowStream, ho, hsd, ha]
  · rcases s with ⟨c, t, p, cl, stm, u, f, stopped, i, a⟩
    cases cl with
    | none => simp at hc
    | some k =>
      cases stm <;> cases ho : x.streamingDetectIntentErr <;> cases hsd : x.firstSendErr <;>
        cases ha : x.audioSendErr <;>
        simp [onTwilioMedia, GetDialogflowStream, ho, hsd, ha, isAudioSend] at h ⊢
  · intro hnone
    rcases s with ⟨c, t, p, cl, stm, u, f, stopped, i, a⟩
    simp only at hnone
    subst hnone
    cases cl with
    | none => simp at hc
    | some k =>
      cases ho : x.streamingDetectIntentErr <;> cases hsd : x.firstSendErr <;>
        cases ha : x.audioSendErr <;>
        simp [onTwilioMedia, GetDialogflowStream, ho, hsd, ha, isStreamOpen]
  · intro hsome
    rcases s with ⟨c, t, p, cl, stm, u, f, stopped, i, a⟩
    cases stm with
    | none => simp at hsome
    | some k =>
      cases ha : x.audioSendErr <;>
        simp [onTwilioMedia, GetDialogflowStream, ha, isStreamOpen]

theorem media_before_start_witness :
    sampleService.isStopped = false ∧ sampleService.isAudioInputPaused = false ∧
    sampleService.sessionClient.isSome = true ∧
    sampleService.sessionStream = none ∧
    (handleRequest sampleService (mediaEvent [1, 2]) allOk).err = none ∧
    (handleRequest sampleService (mediaEvent [1, 2]) allOk).out.filter isAudioSend =
      [Effect.streamSend (StreamingDetectIntentRequest.inputAudio [1, 2])] ∧
    (handleRequest sampleService (mediaEvent [1, 2]) allOk).out.countP isStreamOpen = 1 ∧
    (handleRequest sampleService (mediaEvent [1, 2]) allOk).out =
      [Effect.streamingDetectIntent,
       Effect.streamSend (StreamingDetectIntentRequest.audioConfig sampleService.sessionPath),
       Effect.goRcvDialogflow,
       Effect.streamSend (StreamingDetectIntentRequest.inputAudio [1, 2])] ∧
    (handleRequest sampleService (mediaEvent [1, 2]) allOk).svc =
      { sampleService with sessionStream := some StreamingDetectIntentClient.mk } :=
  have h := media_before_start sampleService (mediaEvent [1, 2])
    { Track := "inbound", Chunk := "1", Timestamp := "0", Payload := [1, 2] } allOk
    [(stopEvent, allOk)] (by decide) (by decide) (by decide) (by decide) (by decide)
  have hopen := h.2.2.2.2.1 (by decide)
  have hfull := hopen.2.2.1 (by decide) (by decide)
  ⟨by decide, by decide, by decide, by decide, by decide, (h.2.2.1 (by decide)).1,
   hopen.1, hfull.1, hfull.2⟩

/-- C1, as stated, fails: a Start event carrying "C" is followed by a Stop event and then
by a Mark named "endOfInteraction"; the loop ends at the Stop and the call-update
operation is never invoked. -/
theorem stop_before_end_mark_no_redirect :
    (HandleConnection sampleService
      [(startEvent "C" "S", allOk), (stopEvent, allOk),
       (markEvent "endOfInteraction", allOk)]).out.countP isUpdateCall = 0 ∧
    (HandleConnection sampleService
      [(startEvent "C" "S", allOk), (stopEvent, allOk),
       (markEvent "endOfInteraction", allOk)]).svc.isStopped = true := by
  decide

/-- C1, amended. Take an event sequence in which a Start event carrying call identifier
C is followed, with no other Start in between, by a Mark named "endOfInteraction", and
suppose the loop reaches that Mark (the events before it leave the session running: no
error, no panic, not stopped) and the control document builds. Then over the whole
sequence the call-update operation is invoked exactly once, with C and the redirect
address of the session; the session ends with `isStopped` set; and the events after
the Mark change nothing: the result is that of the sequence cut after the Mark. -/
theorem redirect_exactly_once (s0 : DialogflowService)
    (pre mid post : List (StreamInputRequest × External))
    (reqS : StreamInputRequest) (st : Start) (xs : External)
    (reqM : StreamInputRequest) (m : Mark) (xm : External)
    (hS : reqS.Event = "start") (hSt : reqS.Start = some st)
    (hmid : ∀ e ∈ mid, e.1.Event ≠ "start")
    (hM : reqM.Event = "mark") (hMk : reqM.Mark = some m) (hn : m.Name = "endOfInteraction")
    (hrun : running (HandleConnection s0 (pre ++ (reqS, xs) :: mid)) = true)
    (hv : xm.voiceErr = false) :
    (HandleConnection s0 ((pre ++ (reqS, xs) :: mid) ++ (reqM, xm) :: post)).out.filter
      isUpdateCall = [Effect.updateCall st.CallSid s0.redirectURL] ∧
    (HandleConnection s0 ((pre ++ (reqS, xs) :: mid) ++ (reqM, xm) :: post)).svc.isStopped
      = true ∧
    HandleConnection s0 ((pre ++ (reqS, xs) :: mid) ++ (reqM, xm) :: post) =
      HandleConnection s0 ((pre ++ (reqS, xs) :: mid) ++ [(reqM, xm)]) := by
  have hcall := callSid_after_start pre mid reqS st xs hS hSt hmid s0 hrun
  have hurl := (HandleConnection_frame (pre ++ (reqS, xs) :: mid) s0).2
  have hstop : (HandleConnection s0 (pre ++ (reqS, xs) :: mid)).svc.isStopped = false := by
    simp only [running, Bool.and_eq_true, Bool.not_eq_true'] at hrun
    exact hrun.1.1
  have hnone := HandleConnection_no_updateCall (pre ++ (reqS, xs) :: mid) s0 hstop
  have hnil : (HandleConnection s0 (pre ++ (reqS, xs) :: mid)).out.filter isUpdateCall = [] := by
    rw [List.filter_eq_nil_iff]
    intro e he
    have := List.countP_eq_zero.mp hnone e he
    simpa using this
  obtain ⟨_, _, _, hfstop, _, hfilter, _⟩ :=
    onFinalResult_frame (HandleConnection s0 (pre ++ (reqS, xs) :: mid)).svc xm
  rw [HandleConnection_append _ ((reqM, xm) :: post) s0 hrun,
    HandleConnection_append _ [(reqM, xm)] s0 hrun,
    HandleConnection_endMark _ reqM m xm post hstop hM hMk hn,
    HandleConnection_endMark _ reqM m xm [] hstop hM hMk hn]
  refine ⟨?_, hfstop, rfl⟩
  simp only [List.filter_append, hnil, List.nil_append]
  rw [hfilter hv, hcall, hurl]

theorem redirect_exactly_once_witness :
    running (HandleConnection sampleService
      ([] ++ (startEvent "C" "S", allOk) :: [(mediaEvent [1], allOk)])) = true ∧
    (HandleConnection sampleService
      (([] ++ (startEvent "C" "S", allOk) :: [(mediaEvent [1], allOk)]) ++
        (markEvent "endOfInteraction", allOk) :: [(stopEvent, allOk)])).out.filter
      isUpdateCall = [Effect.updateCall "C" sampleService.redirectURL] ∧
    (HandleConnection sampleService
      (([] ++ (startEvent "C" "S", allOk) :: [(mediaEvent [1], allOk)]) ++
        (markEvent "endOfInteraction", allOk) :: [(stopEvent, allOk)])).svc.isStopped = true :=
  have h := redirect_exactly_once sampleService [] [(mediaEvent [1], allOk)] [(stopEvent, allOk)]
    (startEvent "C" "S") { AccountSid := "", StreamSid := "S", CallSid := "C" } allOk
    (markEvent "endOfInteraction") { Name := "endOfInteraction" } allOk
    (by decide) (by decide) (by decide) (by decide) (by decide) (by decide) (by decide)
    (by decide)
  ⟨by decide, h.1, h.2.1⟩

end TwilioDialogflow
